import Mathlib

/-!
Verification of the replay subsystem of the stellar-insights backend
(`src/backend/src/replay/`): configuration validation and range resolution
(`config.rs`), event storage range queries (`storage.rs`), checkpointing
(`checkpoint.rs`), the composite event-processing dispatcher with retry and
backoff (`event_processor.rs`), and the orchestrating replay engine
(`engine.rs`).

The Rust code is embedded shallowly: pure functions become Lean functions,
stateful collaborators (SQLite-backed stores, processors, the state builder)
become explicit state passing over a `ReplayWorld` record together with an
`Env` record of oracle functions, and fallible operations return
`Except String`.  Machine integers (`u64`, `usize`, `u32`) are modelled as
`Nat`; none of the embedded arithmetic can overflow in the scenarios proved
below.  Wall-clock effects (UUID generation, `Instant` durations, `chrono`
timestamps, the tokio sleep and timeout) are modelled by explicit data: fresh
ids come from a counter, sleeps are recorded as a list of requested
durations in milliseconds, and a timed-out dispatch attempt is one possible
`AttemptOutcome` of the retry loop.
-/

set_option autoImplicit false

namespace StellarInsights

/-- Modelled from the spec: `ContractEvent` (its defining module,
`replay/mod.rs`, is not in the source tree; the spec, section 3, gives its
fields: id, ledger_sequence, transaction_hash, contract_id, event_type,
opaque structured payload, timestamp, network tag). The opaque payload and
the timestamp are represented as a `String` and a `Nat`. -/
structure ContractEvent where
  id : String
  ledger_sequence : Nat
  transaction_hash : String
  contract_id : String
  event_type : String
  data : String
  timestamp : Nat
  network : String
deriving DecidableEq, Repr

/-- Modelled from the spec: `EventFilter` (defined in the missing
`replay/mod.rs`; spec section 3: optional set of contract ids, optional set
of event types, optional network tag). -/
structure EventFilter where
  contract_ids : Option (List String)
  event_types : Option (List String)
  network : Option String
deriving DecidableEq, Repr

/-- `EventFilter::default()`: every dimension absent. -/
def EventFilter.default : EventFilter :=
  { contract_ids := none, event_types := none, network := none }

/-- `ReplayMode` from `config.rs`. -/
inductive ReplayMode where
  | full
  | incremental
  | verification
  | debug
deriving DecidableEq, Repr

/-- The `Display` implementation for `ReplayMode` in `config.rs`. -/
def ReplayMode.display : ReplayMode → String
  | .full => "Full"
  | .incremental => "Incremental"
  | .verification => "Verification"
  | .debug => "Debug"

/-- `ReplayRange` from `config.rs`. -/
inductive ReplayRange where
  | all
  | from_ (start : Nat)
  | to (end_ : Nat)
  | fromTo (start end_ : Nat)
  | fromCheckpoint (checkpoint_id : String)
  | last (count : Nat)
deriving DecidableEq, Repr

/-- `ReplayRange::start_ledger` from `config.rs`. -/
def ReplayRange.start_ledger (range : ReplayRange) (latest : Nat)
    (checkpoint_ledger : Option Nat) : Option Nat :=
  match range with
  | .all => some 0
  | .from_ start => some start
  | .to _ => some 0
  | .fromTo start _ => some start
  | .fromCheckpoint _ => checkpoint_ledger
  | .last count => some (latest - count)

/-- `ReplayRange::end_ledger` from `config.rs`. -/
def ReplayRange.end_ledger (range : ReplayRange) (latest : Nat) : Option Nat :=
  match range with
  | .all => some latest
  | .from_ _ => some latest
  | .to e => some e
  | .fromTo _ e => some e
  | .fromCheckpoint _ => some latest
  | .last _ => some latest

/-- `ReplayRange::contains` from `config.rs`. -/
def ReplayRange.contains (range : ReplayRange) (ledger latest : Nat)
    (checkpoint_ledger : Option Nat) : Bool :=
  let start := (range.start_ledger latest checkpoint_ledger).getD 0
  let e := (range.end_ledger latest).getD (2 ^ 64 - 1)
  start ≤ ledger && ledger ≤ e

/-- `ReplayConfig` from `config.rs`. -/
structure ReplayConfig where
  mode : ReplayMode
  range : ReplayRange
  filter : EventFilter
  batch_size : Nat
  max_workers : Nat
  dry_run : Bool
  verbose : Bool
  checkpoint_interval : Nat
  event_timeout_secs : Nat
  max_retries : Nat
deriving DecidableEq, Repr

/-- `ReplayConfig::default()` from `config.rs`. -/
def ReplayConfig.default : ReplayConfig :=
  { mode := .full
    range := .all
    filter := EventFilter.default
    batch_size := 100
    max_workers := 4
    dry_run := false
    verbose := false
    checkpoint_interval := 1000
    event_timeout_secs := 30
    max_retries := 3 }

/-- `ReplayConfig::validate` from `config.rs`, checks in source order. -/
def ReplayConfig.validate (cfg : ReplayConfig) : Except String Unit :=
  if cfg.batch_size = 0 then
    .error "Batch size must be greater than 0"
  else if cfg.max_workers = 0 then
    .error "Max workers must be greater than 0"
  else if cfg.checkpoint_interval = 0 then
    .error "Checkpoint interval must be greater than 0"
  else if cfg.event_timeout_secs = 0 then
    .error "Event timeout must be greater than 0"
  else
    match cfg.range with
    | .fromTo start end_ =>
        if end_ < start then
          .error ("Invalid range: start (" ++ toString start ++ ") > end ("
            ++ toString end_ ++ ")")
        else .ok ()
    | .fromCheckpoint checkpoint_id =>
        if checkpoint_id = "" then .error "Checkpoint ID cannot be empty" else .ok ()
    | _ => .ok ()

/-- Modelled from the spec: session status (defined in the missing
`replay/mod.rs`; spec section 3 and the variants used by `engine.rs`):
Pending, InProgress, Completed, Failed, Paused. -/
inductive ReplayStatus where
  | pending
  | inProgress (current_ledger events_processed events_failed : Nat)
  | completed (events_processed events_failed duration_secs : Nat)
  | failed (error : String) (last_ledger : Option Nat)
  | paused (last_ledger events_processed events_failed : Nat)
deriving DecidableEq, Repr

/-- `Checkpoint` from `checkpoint.rs`.  The state snapshot is the state
builder's serialized contents, modelled as the list of applied events;
`created_at` is a `Nat` timestamp. -/
structure Checkpoint where
  id : String
  session_id : String
  last_ledger : Nat
  events_processed : Nat
  events_failed : Nat
  state_snapshot : List ContractEvent
  metadata : List (String × String)
  created_at : Nat
deriving DecidableEq, Repr

/-- `Checkpoint::new` from `checkpoint.rs`.  The source draws `id` from
`uuid::Uuid::new_v4()`; freshness is modelled by an explicit `fresh_id`
argument supplied from a counter by the engine model, and `created_at` by an
explicit clock value. -/
def Checkpoint.new (fresh_id session_id : String) (last_ledger now : Nat) : Checkpoint :=
  { id := fresh_id
    session_id := session_id
    last_ledger := last_ledger
    events_processed := 0
    events_failed := 0
    state_snapshot := []
    metadata := []
    created_at := now }

/-- `Checkpoint::with_metadata` from `checkpoint.rs`. -/
def Checkpoint.with_metadata (c : Checkpoint) (key value : String) : Checkpoint :=
  { c with metadata := c.metadata ++ [(key, value)] }

/-- `Checkpoint::with_state` from `checkpoint.rs`. -/
def Checkpoint.with_state (c : Checkpoint) (state : List ContractEvent) : Checkpoint :=
  { c with state_snapshot := state }

/-- `Checkpoint::with_stats` from `checkpoint.rs`. -/
def Checkpoint.with_stats (c : Checkpoint) (processed failed : Nat) : Checkpoint :=
  { c with events_processed := processed, events_failed := failed }

/-- Modelled from the spec: `ReplayMetadata` (defined in the missing
`replay/mod.rs`; spec section 3: session_id, a copy of the config, a status,
started_at, optional ended_at, optional most-recent checkpoint). -/
structure ReplayMetadata where
  session_id : String
  config : ReplayConfig
  status : ReplayStatus
  started_at : Nat
  ended_at : Option Nat
  checkpoint : Option Checkpoint
deriving DecidableEq, Repr

/-- `StateChange` from `event_processor.rs`; the two `serde_json::Value`
fields are modelled as opaque strings. -/
structure StateChange where
  change_type : String
  entity_type : String
  entity_id : String
  previous_value : Option String
  new_value : Option String
deriving DecidableEq, Repr

/-- `ProcessingResult` from `event_processor.rs`. -/
structure ProcessingResult where
  success : Bool
  error : Option String
  state_changes : List StateChange
  duration_ms : Nat
  skipped : Bool
deriving DecidableEq, Repr

/-- `ProcessingResult::success()` from `event_processor.rs` (renamed: the
field of the same name exists on the structure). -/
def ProcessingResult.mkSuccess : ProcessingResult :=
  { success := true, error := none, state_changes := [], duration_ms := 0, skipped := false }

/-- `ProcessingResult::failure(error)` from `event_processor.rs`. -/
def ProcessingResult.mkFailure (error : String) : ProcessingResult :=
  { success := false, error := some error, state_changes := [], duration_ms := 0,
    skipped := false }

/-- `ProcessingResult::skipped()` from `event_processor.rs` (renamed as for
`mkSuccess`). -/
def ProcessingResult.mkSkipped : ProcessingResult :=
  { success := true, error := none, state_changes := [], duration_ms := 0, skipped := true }

/-- `ProcessingContext` from `event_processor.rs`; the `Duration` timeout is
held in milliseconds. -/
structure ProcessingContext where
  session_id : Option String
  dry_run : Bool
  current_ledger : Nat
  events_processed : Nat
  timeout_millis : Nat
deriving DecidableEq, Repr

/-- `ProcessingContext::new` from `event_processor.rs`
(`Duration::from_secs(30)` = 30000 ms). -/
def ProcessingContext.new : ProcessingContext :=
  { session_id := none, dry_run := false, current_ledger := 0, events_processed := 0,
    timeout_millis := 30000 }

/-- `ProcessingContext::for_replay` from `event_processor.rs`; note that the
timeout is the literal `Duration::from_secs(30)`, not a configured value. -/
def ProcessingContext.for_replay (session_id : String) (dry_run : Bool) : ProcessingContext :=
  { session_id := some session_id, dry_run := dry_run, current_ledger := 0,
    events_processed := 0, timeout_millis := 30000 }

/-- `ProcessingContext::is_replay` from `event_processor.rs`. -/
def ProcessingContext.is_replay (ctx : ProcessingContext) : Bool :=
  ctx.session_id.isSome

/-- The default `EventProcessor::validate_event` trait method from
`event_processor.rs`. -/
def default_validate_event (event : ContractEvent) : Except String Unit :=
  if event.contract_id = "" then .error "Contract ID is empty"
  else if event.event_type = "" then .error "Event type is empty"
  else .ok ()

/-- The `EventProcessor` trait object from `event_processor.rs`.  A
processor's effects run against external state of type `σ` (its database
pool in the source), made explicit by state passing: `is_processed` is a
read, `process_event` may mutate, `mark_processed` mutates.  The
`validate_event` field defaults to the trait's default method. -/
structure Processor (σ : Type) where
  is_processed : σ → ContractEvent → Except String Bool
  process_event : σ → ContractEvent → ProcessingContext → Except String (ProcessingResult × σ)
  mark_processed : σ → ContractEvent → Except String σ
  validate_event : ContractEvent → Except String Unit := default_validate_event
  name : String

/-- Instrumentation of the dispatcher: which trait calls
`process_event_internal` makes, in order. -/
inductive DispatchAction where
  | checkedIdempotency (name : String)
  | validated (name : String)
  | ranProcessor (name : String)
  | markedProcessed (name : String)
deriving DecidableEq, Repr

/-- `CompositeEventProcessor::process_event_internal` from
`event_processor.rs`: walk the processors in order; if one reports the event
already processed, return a skipped result immediately; otherwise validate
(errors propagate), run the processor (an `Err` means try the next
processor), mark processed when not a dry-run and the result succeeded, and
return the result.  If no processor handled the event, return the
"No processor found for event" failure.  The wall-clock duration stamping of
the result is not modelled.  The returned `DispatchAction` list is pure
instrumentation recording the calls made. -/
def process_event_internal {σ : Type} :
    List (Processor σ) → ContractEvent → ProcessingContext → σ →
    Except String (ProcessingResult × σ × List DispatchAction)
  | [], _event, _context, s =>
      .ok (ProcessingResult.mkFailure "No processor found for event", s, [])
  | p :: rest, event, context, s =>
      match p.is_processed s event with
      | .error e => .error e
      | .ok true => .ok (ProcessingResult.mkSkipped, s, [.checkedIdempotency p.name])
      | .ok false =>
        match p.validate_event event with
        | .error e => .error e
        | .ok _ =>
          match p.process_event s event context with
          | .ok (result, s1) =>
              if !context.dry_run && result.success then
                match p.mark_processed s1 event with
                | .error e => .error e
                | .ok s2 =>
                    .ok (result, s2,
                      [.checkedIdempotency p.name, .validated p.name, .ranProcessor p.name,
                       .markedProcessed p.name])
              else
                .ok (result, s1,
                  [.checkedIdempotency p.name, .validated p.name, .ranProcessor p.name])
          | .error _e =>
              match process_event_internal rest event context s with
              | .ok (r, s1, acts) =>
                  .ok (r, s1,
                    .checkedIdempotency p.name :: .validated p.name
                      :: .ranProcessor p.name :: acts)
              | .error e2 => .error e2

/-- The three possible outcomes of one dispatch attempt inside
`process_with_retry` (the `match timeout(context.timeout, ...)` in
`event_processor.rs`): the dispatch completed with a result (`Ok(Ok(_))`),
the dispatch returned an error (`Ok(Err(_))`), or the timeout elapsed
(`Err(_)`). -/
inductive AttemptOutcome (σ : Type) where
  | completed (result : ProcessingResult) (s : σ)
  | errored (e : String)
  | timedOut

/-- The `while attempts <= max_retries` loop of
`CompositeEventProcessor::process_with_retry` from `event_processor.rs`,
with the attempt body abstracted as `step` (attempt index and current state
to outcome).  `remaining` counts the loop iterations still allowed
(initially `max_retries + 1`).  Before every attempt except the first the
source sleeps `100ms * 2^attempts`; the model records those requested
durations.  Returns the result, the final state, the number of attempts
performed, and the recorded sleeps in order. -/
def retry_go {σ : Type} (step : Nat → σ → AttemptOutcome σ) :
    Nat → Nat → σ → Option String → ProcessingResult × σ × Nat × List Nat
  | 0, attempts, s, lastError =>
      (ProcessingResult.mkFailure (lastError.getD "Unknown error"), s, attempts, [])
  | remaining + 1, attempts, s, _lastError =>
      let sleepNow : List Nat := if 0 < attempts then [100 * 2 ^ attempts] else []
      match step attempts s with
      | .completed result s1 =>
          if result.success then (result, s1, attempts + 1, sleepNow)
          else
            let r := retry_go step remaining (attempts + 1) s1 result.error
            (r.1, r.2.1, r.2.2.1, sleepNow ++ r.2.2.2)
      | .errored e =>
          let r := retry_go step remaining (attempts + 1) s (some e)
          (r.1, r.2.1, r.2.2.1, sleepNow ++ r.2.2.2)
      | .timedOut =>
          let r := retry_go step remaining (attempts + 1) s (some "Processing timeout")
          (r.1, r.2.1, r.2.2.1, sleepNow ++ r.2.2.2)

/-- One dispatch attempt, when the attempt does not time out: run
`process_event_internal` and classify its result as an `AttemptOutcome`. -/
def dispatch_step {σ : Type} (processors : List (Processor σ)) (event : ContractEvent)
    (context : ProcessingContext) : Nat → σ → AttemptOutcome σ :=
  fun _ s =>
    match process_event_internal processors event context s with
    | .ok (r, s1, _acts) => .completed r s1
    | .error e => .errored e

/-- `CompositeEventProcessor::process_with_retry` from `event_processor.rs`,
for the deterministic execution in which no attempt hits the wall-clock
timeout (timeouts are reasoned about through `retry_go` and
`AttemptOutcome.timedOut`). -/
def process_with_retry {σ : Type} (processors : List (Processor σ)) (event : ContractEvent)
    (context : ProcessingContext) (max_retries : Nat) (s : σ) :
    ProcessingResult × σ × Nat × List Nat :=
  retry_go (dispatch_step processors event context) (max_retries + 1) 0 s none

/-- The `ORDER BY ledger_sequence ASC, id ASC` ordering used by
`EventStorage::get_events_in_range` in `storage.rs`. -/
def eventLe (a b : ContractEvent) : Bool :=
  match compare a.ledger_sequence b.ledger_sequence with
  | .lt => true
  | .gt => false
  | .eq =>
      match compare a.id b.id with
      | .gt => false
      | _ => true

/-- Insert an event into a list sorted by `eventLe`. -/
def insertEvent (e : ContractEvent) : List ContractEvent → List ContractEvent
  | [] => [e]
  | x :: xs => if eventLe x e then x :: insertEvent e xs else e :: x :: xs

/-- Sort rows by `(ledger_sequence, id)`, as the SQL `ORDER BY` does. -/
def sortEvents : List ContractEvent → List ContractEvent
  | [] => []
  | x :: xs => insertEvent x (sortEvents xs)

/-- Whether the filter has at least one present dimension, in which case
`get_events_in_range` in `storage.rs` appends a SQL clause with a
placeholder for it. -/
def EventFilter.has_dimension (filter : EventFilter) : Bool :=
  filter.contract_ids.isSome || filter.event_types.isSome || filter.network.isSome

/-- `EventStorage::get_events_in_range` from `storage.rs`, over a table
modelled as the list of stored rows.  The source builds the SQL string,
appending `AND contract_id IN ($n)` / `AND event_type IN ($n)` /
`AND network = $n` clauses for each present filter dimension, but binds only
`$1` and `$2` (start and end); the filter placeholders are never bound (the
in-code comment reads "Bind filter parameters (simplified - in production,
use proper parameter binding)").  Executing such a statement fails with a
parameter-count mismatch, modelled here as an error whenever any filter
dimension is present.  With no filter dimension present, the query returns
the rows in the ledger range ordered by `(ledger_sequence ASC, id ASC)`,
truncated to `limit` when given. -/
def get_events_in_range (table : List ContractEvent) (start_ledger end_ledger : Nat)
    (filter : EventFilter) (limit : Option Nat) : Except String (List ContractEvent) :=
  if filter.has_dimension then
    .error "wrong number of parameters"
  else
    let rows := sortEvents (table.filter (fun ev =>
      decide (start_ledger ≤ ev.ledger_sequence) && decide (ev.ledger_sequence ≤ end_ledger)))
    .ok (match limit with
      | some lim => rows.take lim
      | none => rows)

/-- Modelled from the spec: `StateBuilder::apply_event` (`state_builder.rs`
is not in the source tree; spec section 4.5: "mutates an in-memory
derived-state model").  The in-memory model is the list of applied events,
in application order; its serialized snapshot is the list itself. -/
def StateBuilder.apply_event (state : List ContractEvent) (event : ContractEvent) :
    List ContractEvent :=
  state ++ [event]

/-- The external collaborators of `ReplayEngine` (`engine.rs`): the event
store, the checkpoint manager, the replay (session-metadata) store, the
state-persistence sink, the registered processors, and the clock values the
source draws from `Utc::now()` and `Instant`.  Each fallible store call is
an oracle returning `Except String`; its error string is the message the
corresponding component produces (including any `anyhow` context it
attaches). -/
structure Env (σ : Type) where
  fetch : Nat → Nat → EventFilter → Option Nat → Except String (List ContractEvent)
  get_latest_ledger : Except String (Option Nat)
  load_checkpoint : String → Except String (Option Checkpoint)
  save_checkpoint : Checkpoint → Except String Unit
  save_metadata : ReplayMetadata → Except String Unit
  persist_state : List ContractEvent → Except String Unit
  processors : List (Processor σ)
  now : Nat
  duration_secs : Nat

/-- The mutable state a replay session acts on: the processors' external
state, the state builder's in-memory model, the rows accumulated in the
checkpoint store (each `save` inserts a new row because every checkpoint id
is fresh), the successful session-metadata saves in order, and the fresh-id
counter standing in for UUID generation. -/
structure ReplayWorld (σ : Type) where
  procState : σ
  applied : List ContractEvent
  checkpoints : List Checkpoint
  metadataSaves : List ReplayMetadata
  nextId : Nat

/-- `ReplayEngine::get_checkpoint_id` from `engine.rs`. -/
def get_checkpoint_id (cfg : ReplayConfig) : Option String :=
  match cfg.range with
  | .fromCheckpoint checkpoint_id => some checkpoint_id
  | _ => none

/-- `ReplayEngine::get_current_ledger` from `engine.rs`. -/
def get_current_ledger (metadata : ReplayMetadata) : Option Nat :=
  match metadata.status with
  | .inProgress current_ledger _ _ => some current_ledger
  | .paused last_ledger _ _ => some last_ledger
  | _ => none

/-- `ReplayEngine::determine_ledger_range` from `engine.rs`: read the
latest ledger (`unwrap_or(0)`), load the checkpoint when the range is
`FromCheckpoint`, and resolve both bounds, defaulting a missing start bound
to 0 (`unwrap_or(0)`) and a missing end bound to the latest ledger. -/
def determine_ledger_range {σ : Type} (env : Env σ) (cfg : ReplayConfig) :
    Except String (Nat × Nat) :=
  match env.get_latest_ledger with
  | .error e => .error e
  | .ok latest_opt =>
    let latest_ledger := latest_opt.getD 0
    match ((match get_checkpoint_id cfg with
            | some checkpoint_id =>
                match env.load_checkpoint checkpoint_id with
                | .error e => .error e
                | .ok c => .ok (c.map (fun ck => ck.last_ledger))
            | none => .ok none) : Except String (Option Nat)) with
    | .error e => .error e
    | .ok checkpoint_ledger =>
      .ok ((cfg.range.start_ledger latest_ledger checkpoint_ledger).getD 0,
           (cfg.range.end_ledger latest_ledger).getD latest_ledger)

/-- `ReplayEngine::create_checkpoint` from `engine.rs`: build a checkpoint
from the current stats, the state builder's snapshot and the mode, save it
(a fresh row), and attach it to the session metadata. -/
def create_checkpoint {σ : Type} (env : Env σ) (cfg : ReplayConfig) (sid : String)
    (ledger processed failed : Nat) (w : ReplayWorld σ) (metadata : ReplayMetadata) :
    Except String (ReplayWorld σ × ReplayMetadata) :=
  let checkpoint :=
    (((Checkpoint.new (toString w.nextId) sid ledger env.now).with_stats
      processed failed).with_state w.applied).with_metadata "mode" cfg.mode.display
  match env.save_checkpoint checkpoint with
  | .error e => .error e
  | .ok _ =>
      .ok ({ w with checkpoints := w.checkpoints ++ [checkpoint], nextId := w.nextId + 1 },
        { metadata with checkpoint := some checkpoint })

/-- The `for event in &events` loop of `ReplayEngine::execute_replay`
(`engine.rs`): each event goes through `process_with_retry`; a successful
result (the skipped result included, since it carries `success = true`)
increments the processed counter and, when the mode is Full or Verification,
applies the event to the state builder; otherwise the failed counter is
incremented and the loop moves on.  (The source also matches on an `Err`
from `process_with_retry`, counting it as a failure, but that function
always returns `Ok`.)  The per-event results are returned as a trace. -/
def process_batch {σ : Type} (env : Env σ) (cfg : ReplayConfig)
    (context : ProcessingContext) :
    List ContractEvent → Nat → Nat → ReplayWorld σ →
    Nat × Nat × ReplayWorld σ × List ProcessingResult
  | [], processed, failed, w => (processed, failed, w, [])
  | event :: rest, processed, failed, w =>
      let pr := process_with_retry env.processors event context cfg.max_retries w.procState
      let result := pr.1
      let w1 := { w with procState := pr.2.1 }
      if result.success then
        let w2 :=
          if cfg.mode = ReplayMode.full ∨ cfg.mode = ReplayMode.verification then
            { w1 with applied := StateBuilder.apply_event w1.applied event }
          else w1
        let r := process_batch env cfg context rest (processed + 1) failed w2
        (r.1, r.2.1, r.2.2.1, result :: r.2.2.2)
      else
        let r := process_batch env cfg context rest processed (failed + 1) w1
        (r.1, r.2.1, r.2.2.1, result :: r.2.2.2)

/-- The `while current_ledger <= end_ledger` loop of
`ReplayEngine::execute_replay` (`engine.rs`): fetch a batch (the engine
wraps a fetch failure in the context "Failed to fetch events", which is the
message the error then displays), process it, advance `current_ledger` to
`batch_end + 1`, update the in-progress status, checkpoint when
`current_ledger` is a multiple of the checkpoint interval, and persist the
session metadata.  Errors abort the loop, leaving the world and metadata as
already mutated.  `fuel` bounds the number of iterations; with a validated
config (`batch_size ≥ 1`), `end_ledger + 1 - start_ledger` iterations always
suffice, and exhausted fuel (a model artifact) reports an error. -/
def replay_loop {σ : Type} (env : Env σ) (cfg : ReplayConfig) (sid : String)
    (context : ProcessingContext) :
    Nat → Nat → Nat → Nat → Nat → ReplayWorld σ → ReplayMetadata →
    ReplayWorld σ × ReplayMetadata × Except String (Nat × Nat)
  | 0, current_ledger, end_ledger, processed, failed, w, metadata =>
      if current_ledger ≤ end_ledger then (w, metadata, .error "model: loop fuel exhausted")
      else (w, metadata, .ok (processed, failed))
  | fuel + 1, current_ledger, end_ledger, processed, failed, w, metadata =>
      if current_ledger ≤ end_ledger then
        let batch_end := min (current_ledger + cfg.batch_size - 1) end_ledger
        match env.fetch current_ledger batch_end cfg.filter (some cfg.batch_size) with
        | .error _e => (w, metadata, .error "Failed to fetch events")
        | .ok events =>
          let pb := process_batch env cfg context events processed failed w
          let processed1 := pb.1
          let failed1 := pb.2.1
          let w1 := pb.2.2.1
          let next_ledger := batch_end + 1
          let metadata1 := { metadata with
            status := .inProgress next_ledger processed1 failed1 }
          match (if next_ledger % cfg.checkpoint_interval = 0 then
              create_checkpoint env cfg sid next_ledger processed1 failed1 w1 metadata1
            else .ok (w1, metadata1)) with
          | .error e => (w1, metadata1, .error e)
          | .ok (w2, metadata2) =>
            match env.save_metadata metadata2 with
            | .error e => (w2, metadata2, .error e)
            | .ok _ =>
              let w3 := { w2 with metadataSaves := w2.metadataSaves ++ [metadata2] }
              replay_loop env cfg sid context fuel next_ledger end_ledger
                processed1 failed1 w3 metadata2
      else (w, metadata, .ok (processed, failed))

/-- `ReplayEngine::execute_replay` from `engine.rs`: build the replay
processing context, run the batch loop, create the final checkpoint at
`end_ledger`, and (when not a dry run) persist the final state. -/
def execute_replay {σ : Type} (env : Env σ) (cfg : ReplayConfig) (sid : String)
    (fuel start_ledger end_ledger : Nat) (w : ReplayWorld σ) (metadata : ReplayMetadata) :
    ReplayWorld σ × ReplayMetadata × Except String (Nat × Nat) :=
  let context := ProcessingContext.for_replay sid cfg.dry_run
  match replay_loop env cfg sid context fuel start_ledger end_ledger 0 0 w metadata with
  | (w1, metadata1, .error e) => (w1, metadata1, .error e)
  | (w1, metadata1, .ok (processed, failed)) =>
    match create_checkpoint env cfg sid end_ledger processed failed w1 metadata1 with
    | .error e => (w1, metadata1, .error e)
    | .ok (w2, metadata2) =>
      if cfg.dry_run then (w2, metadata2, .ok (processed, failed))
      else
        match env.persist_state w2.applied with
        | .error e => (w2, metadata2, .error e)
        | .ok _ => (w2, metadata2, .ok (processed, failed))

/-- The initial `Pending` session metadata built at the top of
`ReplayEngine::start` (`engine.rs`). -/
def initial_metadata (cfg : ReplayConfig) (sid : String) (now : Nat) : ReplayMetadata :=
  { session_id := sid
    config := cfg
    status := .pending
    started_at := now
    ended_at := none
    checkpoint := none }

/-- `ReplayEngine::start` from `engine.rs`: persist `Pending` metadata,
resolve the ledger range, persist `InProgress`, run `execute_replay`, and
set the terminal status — `Completed` with the final counts on success, or
`Failed` carrying the error display and `get_current_ledger` of the mutated
metadata when `execute_replay` returned an error.  The terminal metadata is
then saved, and the (possibly `Failed`) metadata is returned as the `Ok`
value; only failures of the metadata saves themselves or of
`determine_ledger_range` propagate as errors. -/
def start {σ : Type} (env : Env σ) (cfg : ReplayConfig) (sid : String) (fuel : Nat)
    (w : ReplayWorld σ) : ReplayWorld σ × Except String ReplayMetadata :=
  let metadata := initial_metadata cfg sid env.now
  match env.save_metadata metadata with
  | .error e => (w, .error e)
  | .ok _ =>
    let w1 := { w with metadataSaves := w.metadataSaves ++ [metadata] }
    match determine_ledger_range env cfg with
    | .error e => (w1, .error e)
    | .ok (start_ledger, end_ledger) =>
      let metadata1 := { metadata with status := .inProgress start_ledger 0 0 }
      match env.save_metadata metadata1 with
      | .error e => (w1, .error e)
      | .ok _ =>
        let w2 := { w1 with metadataSaves := w1.metadataSaves ++ [metadata1] }
        let r := execute_replay env cfg sid fuel start_ledger end_ledger w2 metadata1
        let metadata2 :=
          match r.2.2 with
          | .ok (processed, failed) =>
              { r.2.1 with
                status := .completed processed failed env.duration_secs
                ended_at := some env.now }
          | .error e =>
              { r.2.1 with
                status := .failed e (get_current_ledger r.2.1)
                ended_at := some env.now }
        match env.save_metadata metadata2 with
        | .error e => (r.1, .error e)
        | .ok _ =>
          ({ r.1 with metadataSaves := r.1.metadataSaves ++ [metadata2] }, .ok metadata2)

/-! Concrete instances used to exercise the model. -/

/-- A well-formed sample event (non-empty contract id and event type). -/
def sampleEvent : ContractEvent :=
  { id := "evt-1"
    ledger_sequence := 5
    transaction_hash := "tx-1"
    contract_id := "c1"
    event_type := "snapshot_submitted"
    data := "payload"
    timestamp := 0
    network := "testnet" }

/-- The empty initial world over trivial processor state. -/
def world0 : ReplayWorld Unit :=
  { procState := (), applied := [], checkpoints := [], metadataSaves := [], nextId := 0 }

/-- A processor whose idempotency marker always reports the event as
already processed. -/
def procAlreadyProcessed : Processor Unit :=
  { is_processed := fun _ _ => .ok true
    process_event := fun s _ _ => .ok (ProcessingResult.mkSuccess, s)
    mark_processed := fun s _ => .ok s
    name := "alreadyProcessed" }

/-- An environment whose only processor is `procAlreadyProcessed` and whose
stores always succeed. -/
def envMarked : Env Unit :=
  { fetch := fun _ _ _ _ => .ok []
    get_latest_ledger := .ok (some 10)
    load_checkpoint := fun _ => .ok none
    save_checkpoint := fun _ => .ok ()
    save_metadata := fun _ => .ok ()
    persist_state := fun _ => .ok ()
    processors := [procAlreadyProcessed]
    now := 0
    duration_secs := 0 }

/-- A processor over a `Nat` invocation counter that fails on its first two
invocations and succeeds from the third on. -/
def flakyProcessor : Processor Nat :=
  { is_processed := fun _ _ => .ok false
    process_event := fun n _ _ =>
      if 2 ≤ n then .ok (ProcessingResult.mkSuccess, n + 1)
      else .ok (ProcessingResult.mkFailure "transient failure", n + 1)
    mark_processed := fun n _ => .ok n
    name := "flaky" }

/-- A processor that handles events of type "A" and errors on everything
else (so that no processor produces a result for other types). -/
def procTypeA : Processor Unit :=
  { is_processed := fun _ _ => .ok false
    process_event := fun s ev _ =>
      if ev.event_type = "A" then .ok (ProcessingResult.mkSuccess, s)
      else .error "unhandled event type"
    mark_processed := fun s _ => .ok s
    name := "typeA" }

/-- First type-A event on ledger 5. -/
def evA1 : ContractEvent :=
  { sampleEvent with id := "a1", event_type := "A" }

/-- Second type-A event on ledger 5. -/
def evA2 : ContractEvent :=
  { sampleEvent with id := "a2", event_type := "A" }

/-- A type-B event on ledger 5, handled by no processor. -/
def evB : ContractEvent :=
  { sampleEvent with id := "b1", event_type := "B" }

/-- The failure-isolation scenario config: `FromTo{start:5, end:5}`,
batch_size 10, checkpoint_interval 1. -/
def cfgFromTo5 : ReplayConfig :=
  { ReplayConfig.default with
    range := .fromTo 5 5
    batch_size := 10
    checkpoint_interval := 1 }

/-- The failure-isolation scenario environment: ledgers 5..5 hold the three
events above; every store operation succeeds. -/
def envBatch3 : Env Unit :=
  { fetch := fun s e _ _ => if s = 5 && e = 5 then .ok [evA1, evA2, evB] else .ok []
    get_latest_ledger := .ok (some 5)
    load_checkpoint := fun _ => .ok none
    save_checkpoint := fun _ => .ok ()
    save_metadata := fun _ => .ok ()
    persist_state := fun _ => .ok ()
    processors := [procTypeA]
    now := 0
    duration_secs := 0 }

/-- A config resuming from a checkpoint id that no stored checkpoint has. -/
def cfgMissingCp : ReplayConfig :=
  { ReplayConfig.default with range := .fromCheckpoint "missing" }

/-- An environment with no stored checkpoints, no events and no processors;
every store operation succeeds and the latest ledger is 10. -/
def envNoCp : Env Unit :=
  { fetch := fun _ _ _ _ => .ok []
    get_latest_ledger := .ok (some 10)
    load_checkpoint := fun _ => .ok none
    save_checkpoint := fun _ => .ok ()
    save_metadata := fun _ => .ok ()
    persist_state := fun _ => .ok ()
    processors := []
    now := 0
    duration_secs := 0 }

/-- An environment whose event store is down: every fetch fails.  Metadata
and checkpoint saves succeed. -/
def envFetchFail : Env Unit :=
  { fetch := fun _ _ _ _ => .error "db down"
    get_latest_ledger := .ok (some 10)
    load_checkpoint := fun _ => .ok none
    save_checkpoint := fun _ => .ok ()
    save_metadata := fun _ => .ok ()
    persist_state := fun _ => .ok ()
    processors := []
    now := 0
    duration_secs := 0 }

/-! Helper lemmas about the retry loop. -/

/-- One unfolding step of the retry loop when attempts remain. -/
theorem retry_go_succ {σ : Type} (step : Nat → σ → AttemptOutcome σ)
    (remaining attempts : Nat) (s : σ) (lastError : Option String) :
    retry_go step (remaining + 1) attempts s lastError
      = (match step attempts s with
         | .completed result s1 =>
             if result.success then
               (result, s1, attempts + 1, if 0 < attempts then [100 * 2 ^ attempts] else [])
             else
               ((retry_go step remaining (attempts + 1) s1 result.error).1,
                (retry_go step remaining (attempts + 1) s1 result.error).2.1,
                (retry_go step remaining (attempts + 1) s1 result.error).2.2.1,
                (if 0 < attempts then [100 * 2 ^ attempts] else [])
                  ++ (retry_go step remaining (attempts + 1) s1 result.error).2.2.2)
         | .errored e =>
             ((retry_go step remaining (attempts + 1) s (some e)).1,
              (retry_go step remaining (attempts + 1) s (some e)).2.1,
              (retry_go step remaining (attempts + 1) s (some e)).2.2.1,
              (if 0 < attempts then [100 * 2 ^ attempts] else [])
                ++ (retry_go step remaining (attempts + 1) s (some e)).2.2.2)
         | .timedOut =>
             ((retry_go step remaining (attempts + 1) s (some "Processing timeout")).1,
              (retry_go step remaining (attempts + 1) s (some "Processing timeout")).2.1,
              (retry_go step remaining (attempts + 1) s (some "Processing timeout")).2.2.1,
              (if 0 < attempts then [100 * 2 ^ attempts] else [])
                ++ (retry_go step remaining (attempts + 1) s
                      (some "Processing timeout")).2.2.2)) := by
  cases hstep : step attempts s <;> simp [retry_go, hstep]

/-- When every attempt completes with the same unsuccessful result (state
unchanged), the loop exhausts the remaining attempts, records one backoff
sleep of `100 * 2 ^ i` before each attempt with positive index `i`, and
returns a failure carrying the result's error message, or "Unknown error"
when the result carried none. -/
theorem retry_go_completed_fail {σ : Type} (r0 : ProcessingResult) (h : r0.success = false) :
    ∀ (remaining attempts : Nat) (s : σ) (lastError : Option String),
    retry_go (fun _ s => .completed r0 s) (remaining + 1) attempts s lastError
      = (ProcessingResult.mkFailure (r0.error.getD "Unknown error"), s,
         attempts + remaining + 1,
         ((List.range' attempts (remaining + 1)).filter (fun i => decide (0 < i))).map
           (fun i => 100 * 2 ^ i)) := by
  intro remaining
  induction remaining with
  | zero =>
    intro attempts s lastError
    by_cases ha : 0 < attempts <;>
      simp [retry_go, h, ha, List.range'_one]
  | succ n ih =>
    intro attempts s lastError
    have hr : List.range' attempts (n + 1 + 1) = attempts :: List.range' (attempts + 1) (n + 1) :=
      List.range'_succ attempts (n + 1) 1
    rw [retry_go_succ]
    simp only [h, Bool.false_eq_true, if_false, ih, hr, List.filter_cons, Prod.mk.injEq]
    refine ⟨trivial, trivial, by omega, ?_⟩
    by_cases ha : 0 < attempts <;> simp [ha]

/-- When every attempt times out, the loop exhausts the remaining attempts
with the same backoff sleeps and fails with "Processing timeout". -/
theorem retry_go_all_timedOut {σ : Type} :
    ∀ (remaining attempts : Nat) (s : σ) (lastError : Option String),
    retry_go (fun _ _ => AttemptOutcome.timedOut) (remaining + 1) attempts s lastError
      = (ProcessingResult.mkFailure "Processing timeout", s,
         attempts + remaining + 1,
         ((List.range' attempts (remaining + 1)).filter (fun i => decide (0 < i))).map
           (fun i => 100 * 2 ^ i)) := by
  intro remaining
  induction remaining with
  | zero =>
    intro attempts s lastError
    by_cases ha : 0 < attempts <;>
      simp [retry_go, ha, List.range'_one]
  | succ n ih =>
    intro attempts s lastError
    have hr : List.range' attempts (n + 1 + 1) = attempts :: List.range' (attempts + 1) (n + 1) :=
      List.range'_succ attempts (n + 1) 1
    rw [retry_go_succ]
    simp only [ih, hr, List.filter_cons, Prod.mk.injEq]
    refine ⟨trivial, trivial, by omega, ?_⟩
    by_cases ha : 0 < attempts <;> simp [ha]

/-- The loop performs at most `remaining` further attempts. -/
theorem retry_go_attempts_le {σ : Type} (step : Nat → σ → AttemptOutcome σ) :
    ∀ (remaining attempts : Nat) (s : σ) (lastError : Option String),
    (retry_go step remaining attempts s lastError).2.2.1 ≤ attempts + remaining := by
  intro remaining
  induction remaining with
  | zero => intro attempts s lastError; simp [retry_go]
  | succ n ih =>
    intro attempts s lastError
    cases hstep : step attempts s with
    | completed res s1 =>
      by_cases hs : res.success
      · simp only [retry_go, hstep, hs, if_true]
        show attempts + 1 ≤ attempts + (n + 1)
        omega
      · rw [Bool.not_eq_true] at hs
        simp only [retry_go, hstep, hs, Bool.false_eq_true, if_false]
        show (retry_go step n (attempts + 1) s1 res.error).2.2.1 ≤ attempts + (n + 1)
        have := ih (attempts + 1) s1 res.error
        omega
    | errored e =>
      simp only [retry_go, hstep]
      show (retry_go step n (attempts + 1) s (some e)).2.2.1 ≤ attempts + (n + 1)
      have := ih (attempts + 1) s (some e)
      omega
    | timedOut =>
      simp only [retry_go, hstep]
      show (retry_go step n (attempts + 1) s (some "Processing timeout")).2.2.1
        ≤ attempts + (n + 1)
      have := ih (attempts + 1) s (some "Processing timeout")
      omega

/-- The sleeps recorded by the loop are exactly one backoff of
`100 * 2 ^ i` for every attempt index `i` from the starting index up to the
final attempt count (exclusive), except index 0 (no sleep before the first
attempt); moreover the attempt count never decreases. -/
theorem retry_go_sleeps {σ : Type} (step : Nat → σ → AttemptOutcome σ) :
    ∀ (remaining attempts : Nat) (s : σ) (lastError : Option String),
    attempts ≤ (retry_go step remaining attempts s lastError).2.2.1 ∧
    (retry_go step remaining attempts s lastError).2.2.2
      = ((List.range' attempts
            ((retry_go step remaining attempts s lastError).2.2.1 - attempts)).filter
          (fun i => decide (0 < i))).map (fun i => 100 * 2 ^ i) := by
  intro remaining
  induction remaining with
  | zero => intro attempts s lastError; simp [retry_go]
  | succ n ih =>
    intro attempts s lastError
    cases hstep : step attempts s with
    | completed res s1 =>
      by_cases hs : res.success
      · refine ⟨?_, ?_⟩ <;> simp only [retry_go, hstep, hs, if_true]
        · show attempts ≤ attempts + 1
          omega
        · show (if 0 < attempts then [100 * 2 ^ attempts] else [])
              = ((List.range' attempts (attempts + 1 - attempts)).filter
                  (fun i => decide (0 < i))).map (fun i => 100 * 2 ^ i)
          have h1 : attempts + 1 - attempts = 1 := by omega
          rw [h1, List.range'_one]
          by_cases ha : 0 < attempts <;> simp [ha]
      · rw [Bool.not_eq_true] at hs
        obtain ⟨ih1, ih2⟩ := ih (attempts + 1) s1 res.error
        refine ⟨?_, ?_⟩ <;>
          simp only [retry_go, hstep, hs, Bool.false_eq_true, if_false]
        · show attempts ≤ (retry_go step n (attempts + 1) s1 res.error).2.2.1
          omega
        · show (if 0 < attempts then [100 * 2 ^ attempts] else [])
              ++ (retry_go step n (attempts + 1) s1 res.error).2.2.2
            = ((List.range' attempts
                  ((retry_go step n (attempts + 1) s1 res.error).2.2.1 - attempts)).filter
                (fun i => decide (0 < i))).map (fun i => 100 * 2 ^ i)
          have h1 : (retry_go step n (attempts + 1) s1 res.error).2.2.1 - attempts
              = ((retry_go step n (attempts + 1) s1 res.error).2.2.1 - (attempts + 1)) + 1 := by
            omega
          rw [h1, List.range'_succ, List.filter_cons, ih2]
          by_cases ha : 0 < attempts <;> simp [ha]
    | errored e =>
      obtain ⟨ih1, ih2⟩ := ih (attempts + 1) s (some e)
      refine ⟨?_, ?_⟩ <;> simp only [retry_go, hstep]
      · show attempts ≤ (retry_go step n (attempts + 1) s (some e)).2.2.1
        omega
      · show (if 0 < attempts then [100 * 2 ^ attempts] else [])
            ++ (retry_go step n (attempts + 1) s (some e)).2.2.2
          = ((List.range' attempts
                ((retry_go step n (attempts + 1) s (some e)).2.2.1 - attempts)).filter
              (fun i => decide (0 < i))).map (fun i => 100 * 2 ^ i)
        have h1 : (retry_go step n (attempts + 1) s (some e)).2.2.1 - attempts
            = ((retry_go step n (attempts + 1) s (some e)).2.2.1 - (attempts + 1)) + 1 := by
          omega
        rw [h1, List.range'_succ, List.filter_cons, ih2]
        by_cases ha : 0 < attempts <;> simp [ha]
    | timedOut =>
      obtain ⟨ih1, ih2⟩ := ih (attempts + 1) s (some "Processing timeout")
      refine ⟨?_, ?_⟩ <;> simp only [retry_go, hstep]
      · show attempts ≤ (retry_go step n (attempts + 1) s (some "Processing timeout")).2.2.1
        omega
      · show (if 0 < attempts then [100 * 2 ^ attempts] else [])
            ++ (retry_go step n (attempts + 1) s (some "Processing timeout")).2.2.2
          = ((List.range' attempts
                ((retry_go step n (attempts + 1) s
                    (some "Processing timeout")).2.2.1 - attempts)).filter
              (fun i => decide (0 < i))).map (fun i => 100 * 2 ^ i)
        have h1 : (retry_go step n (attempts + 1) s (some "Processing timeout")).2.2.1 - attempts
            = ((retry_go step n (attempts + 1) s (some "Processing timeout")).2.2.1
                - (attempts + 1)) + 1 := by
          omega
        rw [h1, List.range'_succ, List.filter_cons, ih2]
        by_cases ha : 0 < attempts <;> simp [ha]

/-! Claim theorems. -/

/-- C10: with an empty processor collection, every dispatch returns the
"No processor found for event" failure, which `process_with_retry` treats as
retryable: it performs exactly `max_retries + 1` dispatch attempts, sleeping
`100 * 2 ^ i` between attempts (for every attempt index `i ≥ 1`, never
before the first), and finally returns a result with `success = false`,
`skipped = false` and error message "No processor found for event". -/
theorem no_processor_failure_is_retried {σ : Type} (event : ContractEvent)
    (context : ProcessingContext) (max_retries : Nat) (s : σ) :
    process_with_retry ([] : List (Processor σ)) event context max_retries s
      = (ProcessingResult.mkFailure "No processor found for event", s, max_retries + 1,
         ((List.range (max_retries + 1)).filter (fun i => decide (0 < i))).map
           (fun i => 100 * 2 ^ i))
    ∧ (ProcessingResult.mkFailure "No processor found for event").success = false
    ∧ (ProcessingResult.mkFailure "No processor found for event").skipped = false
    ∧ (ProcessingResult.mkFailure "No processor found for event").error
        = some "No processor found for event" := by
  refine ⟨?_, rfl, rfl, rfl⟩
  have hstep : dispatch_step ([] : List (Processor σ)) event context
      = fun _ s => .completed (ProcessingResult.mkFailure "No processor found for event") s := by
    funext n s1
    simp [dispatch_step, process_event_internal]
  unfold process_with_retry
  rw [hstep, List.range_eq_range']
  simpa using
    retry_go_completed_fail (ProcessingResult.mkFailure "No processor found for event") rfl
      max_retries 0 s none

/-- C4 (amended): every dispatch attempt in `process_with_retry` runs under
the context timeout, and the context the engine builds for a replay session
(`ProcessingContext::for_replay`) fixes that timeout at 30 seconds
regardless of the configured `event_timeout_secs`; an attempt whose timeout
elapses is recorded as a failed attempt ("Processing timeout"), so a run
whose attempts all time out exhausts the retries and fails. -/
theorem replay_timeout_constant_and_timeout_fails :
    (∀ (session_id : String) (dry_flag : Bool),
      (ProcessingContext.for_replay session_id dry_flag).timeout_millis = 30000)
    ∧ (∀ (σ : Type) (max_retries : Nat) (s : σ),
        retry_go (fun _ _ => AttemptOutcome.timedOut) (max_retries + 1) 0 s none
          = (ProcessingResult.mkFailure "Processing timeout", s, max_retries + 1,
             ((List.range (max_retries + 1)).filter (fun i => decide (0 < i))).map
               (fun i => 100 * 2 ^ i))) := by
  refine ⟨fun _ _ => rfl, fun σ max_retries s => ?_⟩
  rw [List.range_eq_range']
  simpa using retry_go_all_timedOut max_retries 0 s none

/-- C4 (counterexample): a valid configuration with `event_timeout_secs = 5`
still gets a 30-second replay context timeout — the attempt timeout does not
equal the configured per-event timeout. -/
theorem replay_timeout_ignores_config_cex :
    ({ ReplayConfig.default with event_timeout_secs := 5 } : ReplayConfig).validate = .ok ()
    ∧ (ProcessingContext.for_replay "session-4" false).timeout_millis
        ≠ 1000 * ({ ReplayConfig.default with
              event_timeout_secs := 5 } : ReplayConfig).event_timeout_secs := by
  exact ⟨rfl, by decide⟩

/-- C7: `process_with_retry` performs at most `max_retries + 1` attempts and
sleeps only between attempts — exactly `100 * 2 ^ i` before the attempt with
index `i`, for every `i ≥ 1` up to the last attempt performed, never before
the first; a successful attempt returns its result immediately; after
exhausting all attempts the loop returns a failure carrying the last
observed error, or "Unknown error" when no error message was recorded; and
a processor that fails on attempts 1 and 2 and succeeds on attempt 3 yields,
with `max_retries = 3`, an overall success after exactly 3 attempts. -/
theorem process_with_retry_policy :
    (∀ (σ : Type) (processors : List (Processor σ)) (event : ContractEvent)
        (context : ProcessingContext) (max_retries : Nat) (s : σ),
      (process_with_retry processors event context max_retries s).2.2.1 ≤ max_retries + 1
      ∧ (process_with_retry processors event context max_retries s).2.2.2
          = ((List.range'
                0 ((process_with_retry processors event context max_retries s).2.2.1)).filter
              (fun i => decide (0 < i))).map (fun i => 100 * 2 ^ i))
    ∧ (∀ (σ : Type) (step : Nat → σ → AttemptOutcome σ) (remaining attempts : Nat) (s : σ)
        (lastError : Option String) (result : ProcessingResult) (s1 : σ),
        step attempts s = .completed result s1 → result.success = true →
        retry_go step (remaining + 1) attempts s lastError
          = (result, s1, attempts + 1, if 0 < attempts then [100 * 2 ^ attempts] else []))
    ∧ (∀ (σ : Type) (r0 : ProcessingResult) (max_retries : Nat) (s : σ),
        r0.success = false →
        (retry_go (fun _ s => .completed r0 s) (max_retries + 1) 0 s none).1
          = ProcessingResult.mkFailure (r0.error.getD "Unknown error"))
    ∧ process_with_retry [flakyProcessor] sampleEvent ProcessingContext.new 3 0
        = (ProcessingResult.mkSuccess, 3, 3, [200, 400]) := by
  refine ⟨?_, ?_, ?_, ?_⟩
  · intro σ processors event context max_retries s
    constructor
    · simpa [process_with_retry] using
        retry_go_attempts_le (dispatch_step processors event context) (max_retries + 1) 0 s none
    · have h := (retry_go_sleeps (dispatch_step processors event context)
        (max_retries + 1) 0 s none).2
      simpa [process_with_retry] using h
  · intro σ step remaining attempts s lastError result s1 hstep hs
    rw [retry_go_succ, hstep]
    simp [hs]
  · intro σ r0 max_retries s h
    rw [retry_go_completed_fail r0 h max_retries 0 s none]
  · rfl

/-- C7 (witness): a first attempt that immediately succeeds returns after
exactly one attempt with no sleeps. -/
theorem process_with_retry_policy_witness :
    retry_go (fun _ (s : Unit) => AttemptOutcome.completed ProcessingResult.mkSuccess s)
        5 0 () none
      = (ProcessingResult.mkSuccess, (), 1, []) := by
  have h := process_with_retry_policy.2.1 Unit
    (fun _ (s : Unit) => AttemptOutcome.completed ProcessingResult.mkSuccess s)
    4 0 () none ProcessingResult.mkSuccess () rfl rfl
  simpa using h

/-- C8: when the first processor reports the event as already processed,
dispatching returns the skipped result (`success = true`, `skipped = true`,
no StateChange records) with the external state unchanged and with one
single recorded call — the idempotency check on that processor: no later
processor is consulted (the equation does not depend on `rest`) and neither
`process_event` nor `mark_processed` runs.  Because the state is returned
unchanged, dispatching the same still-marked event a second time is the very
same call and again yields `skipped = true` with zero StateChange
records. -/
theorem dispatch_skips_processed_event {σ : Type} (p : Processor σ)
    (rest : List (Processor σ)) (event : ContractEvent) (context : ProcessingContext) (s : σ)
    (h : p.is_processed s event = .ok true) :
    process_event_internal (p :: rest) event context s
      = .ok (ProcessingResult.mkSkipped, s, [.checkedIdempotency p.name])
    ∧ ProcessingResult.mkSkipped.success = true
    ∧ ProcessingResult.mkSkipped.skipped = true
    ∧ ProcessingResult.mkSkipped.state_changes = [] := by
  refine ⟨?_, rfl, rfl, rfl⟩
  simp [process_event_internal, h]

/-- C8 (witness): the skipped dispatch on a concrete processor whose
idempotency marker holds. -/
theorem dispatch_skips_processed_event_witness :
    process_event_internal [procAlreadyProcessed] sampleEvent ProcessingContext.new ()
      = .ok (ProcessingResult.mkSkipped, (), [.checkedIdempotency "alreadyProcessed"]) :=
  (dispatch_skips_processed_event procAlreadyProcessed [] sampleEvent
    ProcessingContext.new () rfl).1

/-- C9: `validate` returns an error whenever `batch_size = 0`, or
`max_workers = 0`, or `checkpoint_interval = 0`, or `event_timeout_secs = 0`,
or the range is `FromTo` with `start > end`, or the range is
`FromCheckpoint` with an empty checkpoint id; and the default configuration
validates successfully. -/
theorem validate_rejects_invalid_accepts_default :
    (∀ cfg : ReplayConfig,
      (cfg.batch_size = 0 ∨ cfg.max_workers = 0 ∨ cfg.checkpoint_interval = 0 ∨
        cfg.event_timeout_secs = 0 ∨
        (∃ s e, cfg.range = .fromTo s e ∧ e < s) ∨
        cfg.range = .fromCheckpoint "") →
      ∃ msg, cfg.validate = .error msg)
    ∧ ReplayConfig.default.validate = .ok () := by
  constructor
  · intro cfg h
    rcases hv : cfg.validate with msg | u
    · exact ⟨msg, rfl⟩
    · exfalso
      cases u
      unfold ReplayConfig.validate at hv
      split_ifs at hv with h1 h2 h3 h4
      rcases h with h | h | h | h | ⟨sL, eL, hq, hlt⟩ | h
      · exact h1 h
      · exact h2 h
      · exact h3 h
      · exact h4 h
      · rw [hq] at hv
        simp [hlt] at hv
      · rw [h] at hv
        simp at hv
  · rfl

/-- C9 (witness): a zero batch size is rejected. -/
theorem validate_rejects_invalid_witness :
    ∃ msg, ({ ReplayConfig.default with batch_size := 0 } : ReplayConfig).validate
      = .error msg :=
  validate_rejects_invalid_accepts_default.1 _ (Or.inl rfl)

/-- C6 (code bug, evaluation): a stored event inside the ledger range that
matches a present contract-id filter is not returned — the query fails
because the filter placeholder is never bound — while the identical call
with no filter dimension does return exactly that event. -/
theorem get_events_filter_never_bound :
    get_events_in_range [sampleEvent] 0 10
      { contract_ids := some ["c1"], event_types := none, network := none } none
      = .error "wrong number of parameters"
    ∧ get_events_in_range [sampleEvent] 0 10 EventFilter.default none = .ok [sampleEvent] := by
  exact ⟨rfl, rfl⟩

/-- C5 (amended): `start_ledger` on a `FromCheckpoint` range returns the
loaded checkpoint ledger unchanged — the checkpoint's `last_ledger` when one
was found, `none` when not — but the engine does not treat that `none` as an
error: `determine_ledger_range` defaults the missing start bound to 0
(`unwrap_or(0)`) and resolves the range as `(0, latest)`, so the session
proceeds with the replay from ledger 0. -/
theorem from_checkpoint_start_resolution {σ : Type} (env : Env σ) (cfg : ReplayConfig)
    (checkpoint_id : String) (latest : Nat)
    (hrange : cfg.range = .fromCheckpoint checkpoint_id)
    (hload : env.load_checkpoint checkpoint_id = .ok none)
    (hlatest : env.get_latest_ledger = .ok (some latest)) :
    (∀ (latest0 : Nat) (checkpoint_ledger : Option Nat),
      (ReplayRange.fromCheckpoint checkpoint_id).start_ledger latest0 checkpoint_ledger
        = checkpoint_ledger)
    ∧ determine_ledger_range env cfg = .ok (0, latest) := by
  refine ⟨fun _ _ => rfl, ?_⟩
  simp [determine_ledger_range, hlatest, get_checkpoint_id, hrange, hload,
    ReplayRange.start_ledger, ReplayRange.end_ledger]

/-- C5 (witness): the concrete missing-checkpoint environment resolves the
range to `(0, 10)`. -/
theorem from_checkpoint_start_resolution_witness :
    determine_ledger_range envNoCp cfgMissingCp = .ok (0, 10) :=
  (from_checkpoint_start_resolution envNoCp cfgMissingCp "missing" 10 rfl rfl rfl).2

/-- C5 (counterexample): with range `FromCheckpoint{"missing"}` and no such
stored checkpoint, the session does resolve a start bound (0) and proceeds —
it runs to the terminal `Completed` status instead of failing. -/
theorem from_checkpoint_missing_proceeds_cex :
    determine_ledger_range envNoCp cfgMissingCp = .ok (0, 10)
    ∧ ((start envNoCp cfgMissingCp "session-5" 2 world0).2.map (fun md => md.status))
        = .ok (.completed 0 0 0) := by
  exact ⟨rfl, rfl⟩

/-- The batch loop processes every event: one trace entry per event. -/
theorem process_batch_trace_length {σ : Type} (env : Env σ) (cfg : ReplayConfig)
    (context : ProcessingContext) :
    ∀ (events : List ContractEvent) (processed failed : Nat) (w : ReplayWorld σ),
    (process_batch env cfg context events processed failed w).2.2.2.length = events.length := by
  intro events
  induction events with
  | nil => intro processed failed w; rfl
  | cons event rest ih =>
    intro processed failed w
    by_cases hs : (process_with_retry env.processors event context cfg.max_retries
        w.procState).1.success <;>
      simp [process_batch, hs, ih]

/-- The processed counter grows by exactly the number of successful
per-event results. -/
theorem process_batch_processed_count {σ : Type} (env : Env σ) (cfg : ReplayConfig)
    (context : ProcessingContext) :
    ∀ (events : List ContractEvent) (processed failed : Nat) (w : ReplayWorld σ),
    (process_batch env cfg context events processed failed w).1
      = processed + ((process_batch env cfg context events processed failed w).2.2.2.countP
          (fun r => r.success)) := by
  intro events
  induction events with
  | nil => intro processed failed w; simp [process_batch]
  | cons event rest ih =>
    intro processed failed w
    by_cases hs : (process_with_retry env.processors event context cfg.max_retries
        w.procState).1.success <;>
      simp [process_batch, hs, ih, List.countP_cons]
    all_goals omega

/-- The failed counter grows by exactly the number of unsuccessful
per-event results. -/
theorem process_batch_failed_count {σ : Type} (env : Env σ) (cfg : ReplayConfig)
    (context : ProcessingContext) :
    ∀ (events : List ContractEvent) (processed failed : Nat) (w : ReplayWorld σ),
    (process_batch env cfg context events processed failed w).2.1
      = failed + ((process_batch env cfg context events processed failed w).2.2.2.countP
          (fun r => !r.success)) := by
  intro events
  induction events with
  | nil => intro processed failed w; simp [process_batch]
  | cons event rest ih =>
    intro processed failed w
    by_cases hs : (process_with_retry env.processors event context cfg.max_retries
        w.procState).1.success <;>
      simp [process_batch, hs, ih, List.countP_cons]
    all_goals omega

/-- The state builder receives exactly the events whose result was
successful — the skipped result included, since it carries
`success = true` — and only when the mode is Full or Verification. -/
theorem process_batch_applied_events {σ : Type} (env : Env σ) (cfg : ReplayConfig)
    (context : ProcessingContext) :
    ∀ (events : List ContractEvent) (processed failed : Nat) (w : ReplayWorld σ),
    (process_batch env cfg context events processed failed w).2.2.1.applied
      = w.applied ++
        (if cfg.mode = ReplayMode.full ∨ cfg.mode = ReplayMode.verification then
          ((events.zip
              (process_batch env cfg context events processed failed w).2.2.2).filter
            (fun pr => pr.2.success)).map (fun pr => pr.1)
        else []) := by
  intro events
  induction events with
  | nil =>
    intro processed failed w
    by_cases hm : cfg.mode = ReplayMode.full ∨ cfg.mode = ReplayMode.verification <;>
      simp [process_batch, hm]
  | cons event rest ih =>
    intro processed failed w
    by_cases hm : cfg.mode = ReplayMode.full ∨ cfg.mode = ReplayMode.verification <;>
      by_cases hs : (process_with_retry env.processors event context cfg.max_retries
          w.procState).1.success <;>
        simp [process_batch, hm, hs, ih, StateBuilder.apply_event]

/-- C2 (amended): in the batch loop every fetched event runs
`process_with_retry` and contributes exactly one result; whenever the result
has `success = true` (the skipped result included) `events_processed` is
incremented and the event is applied to the State Builder exactly when the
mode is Full or Verification — the code performs no "not skipped" check
before applying; whenever the result is a failure after retries
`events_failed` is incremented and the loop continues with the next event
(the counters account for every event, so no failure aborts the batch). -/
theorem batch_loop_per_event_behavior {σ : Type} (env : Env σ) (cfg : ReplayConfig)
    (context : ProcessingContext) (events : List ContractEvent) (processed failed : Nat)
    (w : ReplayWorld σ) :
    (process_batch env cfg context events processed failed w).2.2.2.length = events.length
    ∧ (process_batch env cfg context events processed failed w).1
        = processed + ((process_batch env cfg context events processed failed w).2.2.2.countP
            (fun r => r.success))
    ∧ (process_batch env cfg context events processed failed w).2.1
        = failed + ((process_batch env cfg context events processed failed w).2.2.2.countP
            (fun r => !r.success))
    ∧ (process_batch env cfg context events processed failed w).2.2.1.applied
        = w.applied ++
          (if cfg.mode = ReplayMode.full ∨ cfg.mode = ReplayMode.verification then
            ((events.zip
                (process_batch env cfg context events processed failed w).2.2.2).filter
              (fun pr => pr.2.success)).map (fun pr => pr.1)
          else []) :=
  ⟨process_batch_trace_length env cfg context events processed failed w,
   process_batch_processed_count env cfg context events processed failed w,
   process_batch_failed_count env cfg context events processed failed w,
   process_batch_applied_events env cfg context events processed failed w⟩

/-- C2 (counterexample): in Full mode, an event whose dispatch was skipped
by the idempotency check (`skipped = true`) is nonetheless applied to the
State Builder — the claim's "only if the result is not skipped" does not
hold on the code. -/
theorem skipped_event_still_applied_cex :
    (process_batch envMarked ReplayConfig.default ProcessingContext.new [sampleEvent] 0 0
        world0).2.2.2 = [ProcessingResult.mkSkipped]
    ∧ ProcessingResult.mkSkipped.skipped = true
    ∧ ReplayConfig.default.mode = ReplayMode.full
    ∧ (process_batch envMarked ReplayConfig.default ProcessingContext.new [sampleEvent] 0 0
        world0).2.2.1.applied = [sampleEvent]
    ∧ (process_batch envMarked ReplayConfig.default ProcessingContext.new [sampleEvent] 0 0
        world0).1 = 1 := by
  exact ⟨rfl, rfl, rfl, rfl, rfl⟩

/-- C3 (counterexample): in the failure-isolation scenario
(`FromTo{start:5, end:5}`, batch_size 10, checkpoint_interval 1, three
events on ledger 5 of which one is handled by no processor) the session
records two checkpoints, not one: the interval check fires at
`current_ledger = 6` and the final checkpoint is created at ledger 5. -/
theorem failure_isolation_two_checkpoints_cex :
    (start envBatch3 cfgFromTo5 "session-3" 2 world0).1.checkpoints.length = 2 := by
  rfl

/-- C3 (amended): the failure-isolation scenario terminates with status
`Completed`, `events_processed = 2` and `events_failed = 1`, and records
exactly two checkpoints, both carrying those exact counts: one at ledger
L + 1 = 6 (the interval checkpoint, since `6 mod 1 = 0`) and the final one
at ledger L = 5. -/
theorem failure_isolation_counts_and_checkpoints :
    ((start envBatch3 cfgFromTo5 "session-3" 2 world0).2.map (fun md => md.status))
      = .ok (.completed 2 1 0)
    ∧ ((start envBatch3 cfgFromTo5 "session-3" 2 world0).1.checkpoints.map
        (fun c => (c.last_ledger, c.events_processed, c.events_failed)))
      = [(6, 2, 1), (5, 2, 1)] := by
  exact ⟨rfl, rfl⟩

/-- C1 (amended): when `execute_replay` fails (event fetch, checkpoint
save, or metadata save error in the loop) and metadata saves succeed,
`start` transitions the session to `Failed` carrying the error display and
`get_current_ledger` of the metadata as mutated by the loop, persists that
terminal metadata (it is the last metadata save recorded), and returns the
`Failed` metadata as an `Ok` value — the loop error is not propagated as an
error of `start` itself. -/
theorem start_persists_failed_and_returns_ok {σ : Type} (env : Env σ) (cfg : ReplayConfig)
    (sid : String) (fuel : Nat) (w : ReplayWorld σ) (start_ledger end_ledger : Nat)
    (w2 : ReplayWorld σ) (md1 : ReplayMetadata) (wx : ReplayWorld σ) (mdx : ReplayMetadata)
    (e : String)
    (hsave : ∀ md, env.save_metadata md = .ok ())
    (hrange : determine_ledger_range env cfg = .ok (start_ledger, end_ledger))
    (hmd1 : md1 = { initial_metadata cfg sid env.now with
        status := .inProgress start_ledger 0 0 })
    (hw2 : w2 = { w with metadataSaves :=
        (w.metadataSaves ++ [initial_metadata cfg sid env.now]) ++ [md1] })
    (hexec : execute_replay env cfg sid fuel start_ledger end_ledger w2 md1
        = (wx, mdx, .error e)) :
    start env cfg sid fuel w
      = ({ wx with metadataSaves := wx.metadataSaves ++
            [({ mdx with
                status := .failed e (get_current_ledger mdx)
                ended_at := some env.now } : ReplayMetadata)] },
         .ok { mdx with
             status := .failed e (get_current_ledger mdx)
             ended_at := some env.now }) := by
  subst hmd1
  subst hw2
  simp only [] at hexec
  simp at hexec
  simp [start, hsave, hrange, hexec]

/-- C1 (witness): with an event store whose every fetch fails and working
metadata saves, `start` returns `Ok` metadata whose status is
`Failed{"Failed to fetch events", last_ledger = 0}`. -/
theorem start_persists_failed_witness :
    ((start envFetchFail ReplayConfig.default "s1" 1 world0).2.map (fun md => md.status))
      = .ok (.failed "Failed to fetch events" (some 0)) := by
  have h := start_persists_failed_and_returns_ok envFetchFail ReplayConfig.default "s1" 1
    world0 0 10 _ _ _ _ "Failed to fetch events" (fun _ => rfl) rfl rfl rfl rfl
  rw [h]
  rfl

/-- C1 (counterexample): `start` does not propagate the loop error: with a
failing event store it returns an `Ok` value (a `ReplayMetadata` carrying
the persisted `Failed` status), not an error. -/
theorem start_swallows_loop_error_cex :
    (start envFetchFail ReplayConfig.default "s1" 1 world0).2.isOk = true
    ∧ ((start envFetchFail ReplayConfig.default "s1" 1 world0).2.map
        (fun md => (md.status, md.ended_at)))
      = .ok (.failed "Failed to fetch events" (some 0), some 0) := by
  exact ⟨rfl, rfl⟩

end StellarInsights
